import Mathlib

/-!
Shallow embedding of the scoring core of the phishing-detector repository
(`src/phishing_detector.py`), together with theorems settling the frozen
claims about it.

Python dictionaries with optional keys are embedded as structures whose
fields are `Option`-valued: `none` models an absent key, and every
`dict.get(key, default)` in the source becomes `Option.getD`.  Numeric
scores are embedded as rationals (`ℚ`), so the weighted-sum arithmetic of
the scorer is exact.  Network and library boundaries (the TLS handshake,
the HTTP fetch, the WHOIS lookup, the remote classifier POST) are embedded
as explicit outcome values (`Except`/inductives) passed to the function
that consumes them; everything the repository's own code does with those
outcomes is translated from the source.
-/

namespace PhishingDetector

/-- Result of `check_ssl_certificate` (`src/phishing_detector.py:147-167`):
a Python dict whose keys differ between the success and the failure branch,
hence every field is optional. -/
structure SSLInfo where
  valid : Option Bool := none
  issuer : Option (List (String × String)) := none
  subject : Option (List (String × String)) := none
  expires : Option String := none
  is_self_signed : Option Bool := none
  error : Option String := none
  deriving Repr, DecidableEq

/-- Result of `analyze_content` (`src/phishing_detector.py:169-216`): the
success branch populates the seven content keys and the failure branch only
`error` and `analyzed`, hence every field is optional. -/
structure ContentInfo where
  suspicious_keywords : Option (List String) := none
  has_forms : Option Bool := none
  has_password_field : Option Bool := none
  form_count : Option Nat := none
  external_links_count : Option Nat := none
  title : Option String := none
  has_favicon : Option Bool := none
  analyzed : Option Bool := none
  error : Option String := none
  deriving Repr, DecidableEq

/-- Result of `get_domain_info` (`src/phishing_detector.py:218-235`): the
success branch populates the registration keys and the failure branch only
`error` and `is_new_domain`, hence every field is optional.  The source
stores `creation_date` as `str(creation_date)` or `None`, modelled as
`Option (Option String)` (outer `none` = key absent). -/
structure DomainInfo where
  creation_date : Option (Option String) := none
  days_old : Option Int := none
  registrar : Option (Option String) := none
  is_new_domain : Option Bool := none
  error : Option String := none
  deriving Repr, DecidableEq

/-- The features dict built by `analyze_url` (`src/phishing_detector.py:52-63`).
The scalar keys are always set by `analyze_url` and are read with direct
indexing in the scorer, so they are plain fields; the three sub-records are
read with `features.get(key, \x7b\x7d)` in `rule_based_scoring`, so they are
`Option`-valued (with `none` for an absent key and `some \x7b\x7d` mirroring
`.get`'s empty-dict default). -/
structure FeatureVector where
  url : String := ""
  domain : String := ""
  has_ip : Bool := false
  suspicious_patterns : List String := []
  domain_length : Nat := 0
  subdomain_count : Int := 0
  is_whitelisted : Bool := false
  ssl_info : Option SSLInfo := none
  content_analysis : Option ContentInfo := none
  domain_info : Option DomainInfo := none
  deriving Repr, DecidableEq

/-- Discrete risk label returned by `calculate_risk_level`. -/
inductive RiskLevel where
  | LOW
  | MEDIUM
  | HIGH
  deriving Repr, DecidableEq

/-- `rule_based_scoring` (`src/phishing_detector.py:95-134`), translated
clause by clause: each Python `if cond: score += w` becomes a rebinding of
`score`; Python truthiness of a list (`if features["suspicious_patterns"]:`)
is `≠ []`, and `content.get("suspicious_keywords")` is truthy exactly when
the key holds a non-empty list.  The final line is
`min(1.0, max(0.0, score))`. -/
def rule_based_scoring (features : FeatureVector) : ℚ :=
  let score : ℚ := 0
  let score := if features.has_ip then score + 0.3 else score
  let score := if features.suspicious_patterns ≠ [] then
      score + 0.2 * (features.suspicious_patterns.length : ℚ) else score
  let score := if features.domain_length > 30 then score + 0.1 else score
  let score := if features.subdomain_count > 3 then score + 0.2 else score
  let ssl_info := features.ssl_info.getD {}
  let score := if !(ssl_info.valid.getD false) then score + 0.3 else score
  let score := if ssl_info.is_self_signed.getD false then score + 0.2 else score
  let content := features.content_analysis.getD {}
  let score := if content.suspicious_keywords.getD [] ≠ [] then
      score + 0.1 * ((content.suspicious_keywords.getD []).length : ℚ) else score
  let score := if content.has_password_field.getD false then score + 0.1 else score
  let score := if content.external_links_count.getD 0 > 10 then score + 0.1 else score
  let domain_info := features.domain_info.getD {}
  let score := if domain_info.is_new_domain.getD false then score + 0.2 else score
  let score := if features.is_whitelisted then score - 0.5 else score
  min 1.0 (max 0.0 score)

/-- `calculate_risk_level` (`src/phishing_detector.py:136-145`). -/
def calculate_risk_level (features : FeatureVector) (ai_score : ℚ) : RiskLevel :=
  if features.is_whitelisted then .LOW
  else if ai_score > 0.7 then .HIGH
  else if ai_score > 0.4 then .MEDIUM
  else .LOW

/-- Outcome of the `requests.post` call and body decoding in
`get_ai_prediction` (`src/phishing_detector.py:81-93`), as that function
observes it.  `raises` is any exception inside the `try` block (transport
error, timeout, a body `response.json()` cannot decode); `ok status prob`
is a completed HTTP response of any status code whose body decoded to a
JSON object, `prob` being its `phishing_probability` field when present.
`requests.post` does not raise on a non-2xx status and the source never
inspects the status, which is carried here to state claims about it. -/
inductive RemoteResult where
  | raises (msg : String)
  | ok (status : Nat) (prob : Option ℚ)
  deriving Repr, DecidableEq

/-- `get_ai_prediction` (`src/phishing_detector.py:81-93`): on a decoded
response it returns `response.json().get("phishing_probability", 0.0)`; on
any exception it falls back to `rule_based_scoring`. -/
def get_ai_prediction (r : RemoteResult) (features : FeatureVector) : ℚ :=
  match r with
  | .raises _ => rule_based_scoring features
  | .ok _ prob => prob.getD 0.0

/-- The peer certificate as `ssock.getpeercert()` hands it to
`check_ssl_certificate`: issuer and subject distinguished names and the
expiry string.  The source's `dict(x[0] for x in cert[...])` conversion of
the name into key/value pairs is embedded as the pair list itself. -/
structure PeerCert where
  issuer : List (String × String)
  subject : List (String × String)
  notAfter : String
  deriving Repr, DecidableEq

/-- `check_ssl_certificate` (`src/phishing_detector.py:147-167`), applied
to the outcome of the TLS connection and handshake (the `socket`/`ssl`
library boundary): the success branch builds the valid record with
`is_self_signed = (cert issuer == cert subject)`, and the `except` branch
returns `valid=False`, the error string, and `is_self_signed=True`. -/
def check_ssl_certificate (handshake : Except String PeerCert) : SSLInfo :=
  match handshake with
  | .ok cert =>
      { valid := some true
        issuer := some cert.issuer
        subject := some cert.subject
        expires := some cert.notAfter
        is_self_signed := some (cert.issuer = cert.subject) }
  | .error e =>
      { valid := some false
        error := some e
        is_self_signed := some true }

/-- Character allowed after the first character of a URL scheme in
`urllib.parse`. -/
def isSchemeChar (c : Char) : Bool :=
  c.isAlpha || c.isDigit || c == '+' || c == '-' || c == '.'

/-- Split a character list at its first occurrence of `sep`:
`some (before, after)`, or `none` when `sep` does not occur. -/
def splitFirst (sep : Char) : List Char → Option (List Char × List Char)
  | [] => none
  | c :: rest =>
      if c == sep then some ([], rest)
      else match splitFirst sep rest with
        | none => none
        | some (a, b) => some (c :: a, b)

/-- Network-location extraction of `urllib.parse.urlparse(url).netloc`
(standard-library boundary), over the URL's characters: strip a valid
`scheme:` head (a letter followed by letters, digits, `+`, `-` or `.`),
then, if the remainder starts with `//`, the netloc runs up to the next
`/`, `?` or `#`; otherwise the netloc is empty. -/
def netlocChars (url : List Char) : List Char :=
  let rest :=
    match splitFirst ':' url with
    | some (scheme, tail) =>
        if (scheme.headD ' ').isAlpha && scheme.all isSchemeChar then tail
        else url
    | none => url
  match rest with
  | '/' :: '/' :: r => r.takeWhile fun c => c != '/' && c != '?' && c != '#'
  | _ => []

/-- `urllib.parse.urlparse(url).netloc` as a string. -/
def netlocOf (url : String) : String :=
  ⟨netlocChars url.data⟩

/-- One step of matching `re.search(r"\d+\.\d+\.\d+\.\d+", s)` at a fixed
position: consume one or more digits. -/
def eatDigits (cs : List Char) : Option (List Char) :=
  if (cs.takeWhile Char.isDigit).isEmpty then none
  else some (cs.dropWhile Char.isDigit)

/-- Match `\d+\.\d+\.\d+\.\d+` anchored at the head of `cs`.  For this
pattern greedy digit consumption is exact: after `\d+` the next literal is
`.`, so backtracking to fewer digits can never succeed where maximal munch
failed. -/
def ipAt (cs : List Char) : Bool :=
  (do
    let r ← eatDigits cs
    let r ← match r with | '.' :: r => some r | _ => none
    let r ← eatDigits r
    let r ← match r with | '.' :: r => some r | _ => none
    let r ← eatDigits r
    let r ← match r with | '.' :: r => some r | _ => none
    let _ ← eatDigits r
    pure ()).isSome

/-- Python's `s.split(sep)` for a one-character separator: the maximal
chunks between occurrences of `sep`, with empty chunks kept (splitting the
empty string yields one empty chunk, as in Python). -/
def splitChar (sep : Char) : List Char → List (List Char)
  | [] => [[]]
  | c :: cs =>
      match splitChar sep cs with
      | [] => [[]]
      | chunk :: rest =>
          if c == sep then [] :: chunk :: rest
          else (c :: chunk) :: rest

/-- The suffixes of a character list, longest first (every candidate start
position for an unanchored regex search). -/
def suffixes : List Char → List (List Char)
  | [] => [[]]
  | c :: cs => (c :: cs) :: suffixes cs

/-- `re.search(r"\d+\.\d+\.\d+\.\d+", s)` as a Bool, trying every start
position (`src/phishing_detector.py:55`). -/
def hasIP (s : String) : Bool :=
  (suffixes s.data).any ipAt

/-- Default whitelist from `create_default_config`
(`src/phishing_detector.py:38-40`). -/
def default_whitelist : List String :=
  ["google.com", "facebook.com", "amazon.com"]

/-- The fixed keyword list of `analyze_content`
(`src/phishing_detector.py:181-185`). -/
def suspicious_keyword_list : List String :=
  ["verify account", "suspended", "urgent action",
   "click here immediately", "limited time", "act now",
   "confirm identity", "update payment", "security alert"]

/-- Does `pat` occur at the head of `cs`? -/
def matchHead : List Char → List Char → Bool
  | [], _ => true
  | _ :: _, [] => false
  | p :: ps, c :: cs => p == c && matchHead ps cs

/-- Python's `kw in text` substring containment: `kw` occurs at some start
position of `text`. -/
def containsSub (text kw : String) : Bool :=
  (suffixes text.data).any (matchHead kw.data)

/-- A `<form>` element as `analyze_content` inspects it: the `type`
attribute of each `<input>` inside it (`input_tag.get("type")`, absent
attribute = `none`). -/
structure HtmlForm where
  input_types : List (Option String)
  deriving Repr, DecidableEq

/-- A fetched-and-parsed page as `analyze_content` reads it through
BeautifulSoup (library boundary): full text, forms, the `href` of every
anchor that has one (`find_all("a", href=True)`), the title string when a
`<title>` element exists, and whether a favicon link element exists. -/
structure Page where
  text : String
  forms : List HtmlForm
  anchor_hrefs : List String
  title : Option String
  has_favicon : Bool
  deriving Repr, DecidableEq

/-- `analyze_content` (`src/phishing_detector.py:169-216`), applied to the
outcome of the GET and parse.  The success branch computes the seven
content keys (note the source's success dict carries no `analyzed` key);
the `except` branch returns only `error` and `analyzed=False`. -/
def analyze_content (url : String) (fetch : Except String Page) : ContentInfo :=
  match fetch with
  | .error e => { error := some e, analyzed := some false }
  | .ok page =>
      let text_content : String := ⟨page.text.data.map Char.toLower⟩
      let found_keywords := suspicious_keyword_list.filter (containsSub text_content)
      let has_password_field :=
        page.forms.any fun fm => fm.input_types.any fun t => t == some "password"
      let external_links := page.anchor_hrefs.filter fun h =>
        matchHead "http".data h.data && netlocOf h != netlocOf url
      { suspicious_keywords := some found_keywords
        has_forms := some (page.forms.length > 0)
        has_password_field := some has_password_field
        form_count := some page.forms.length
        external_links_count := some external_links.length
        title := some (page.title.getD "")
        has_favicon := some page.has_favicon }

/-- The `creation_date` attribute of a WHOIS record as the `whois` library
returns it: absent (`None`), a single datetime, or a Python list of
datetimes.  Dates are embedded at day granularity as `Int` days since an
epoch, which makes `(datetime.now() - creation_date).days` exact
subtraction. -/
inductive CreationDates where
  | missing
  | single (d : Int)
  | listed (ds : List Int)
  deriving Repr, DecidableEq

/-- A WHOIS lookup result as `get_domain_info` reads it (library
boundary). -/
structure WhoisRecord where
  creation_date : CreationDates
  registrar : Option String
  deriving Repr, DecidableEq

/-- `get_domain_info` (`src/phishing_detector.py:218-235`), applied to the
current time (in days) and the outcome of `whois.whois(domain)`.  A list
of creation dates is reduced to `creation_date[0]`, its first element; an
empty list makes `creation_date[0]` raise `IndexError` inside the `try`,
landing in the `except` branch.  With a date the record carries
`days_old = now - date` and `is_new_domain = days_old < 30`; with no date,
`days_old = 0` and `is_new_domain = True`; the `except` branch returns only
the error string and `is_new_domain=True`. -/
def get_domain_info (now : Int) (lookup : Except String WhoisRecord) : DomainInfo :=
  match lookup with
  | .error e => { error := some e, is_new_domain := some true }
  | .ok w =>
      match w.creation_date with
      | .listed [] =>
          { error := some "list index out of range", is_new_domain := some true }
      | .missing =>
          { creation_date := some none
            days_old := some 0
            registrar := some w.registrar
            is_new_domain := some true }
      | .single d | .listed (d :: _) =>
          { creation_date := some (some (toString d))
            days_old := some (now - d)
            registrar := some w.registrar
            is_new_domain := some (decide (now - d < 30)) }

/-! ## Concrete inputs used by witnesses and counterexamples -/

/-- The feature vector of the spec's scenario `http://192.0.2.10/login`:
every extractor failed (TLS handshake, content fetch, WHOIS lookup), no
suspicious pattern matched, host not whitelisted.  The lexical fields are
computed exactly as `analyze_url` computes them
(`src/phishing_detector.py:52-63`). -/
def scenarioFV : FeatureVector :=
  let url := "http://192.0.2.10/login"
  let d := netlocOf url
  { url := url
    domain := d
    has_ip := hasIP d
    suspicious_patterns := []
    domain_length := d.length
    subdomain_count := ((splitChar '.' d.data).length : Int) - 2
    is_whitelisted := default_whitelist.contains d
    ssl_info := some (check_ssl_certificate (.error "timed out"))
    content_analysis := some (analyze_content url (.error "connection refused"))
    domain_info := some (get_domain_info 20000 (.error "no such domain")) }

/-- A page whose only two anchors are the same outbound link twice. -/
def dupLinkPage : Page :=
  { text := ""
    forms := []
    anchor_hrefs := ["http://evil.example/a", "http://evil.example/a"]
    title := none
    has_favicon := false }

/-- A WHOIS record carrying two creation dates, the later one first. -/
def multiWhois : WhoisRecord :=
  { creation_date := .listed [990, 900]
    registrar := some "Example Registrar" }

/-- Modelled from the spec's words (§4.6 RuleBasedClassifier): the eleven
weighted terms of the rule-based score, as the spec lists them, one list
entry per rule.  Declared separately from `rule_based_scoring` (which is
translated from the source) so that the two can be compared. -/
def spec_terms (f : FeatureVector) : List ℚ :=
  [if f.has_ip then (0.3 : ℚ) else 0,
   0.2 * (f.suspicious_patterns.length : ℚ),
   if f.domain_length > 30 then (0.1 : ℚ) else 0,
   if f.subdomain_count > 3 then (0.2 : ℚ) else 0,
   if !((f.ssl_info.getD {}).valid.getD false) then (0.3 : ℚ) else 0,
   if (f.ssl_info.getD {}).is_self_signed.getD false then (0.2 : ℚ) else 0,
   0.1 * (((f.content_analysis.getD {}).suspicious_keywords.getD []).length : ℚ),
   if (f.content_analysis.getD {}).has_password_field.getD false then (0.1 : ℚ) else 0,
   if (f.content_analysis.getD {}).external_links_count.getD 0 > 10 then (0.1 : ℚ) else 0,
   if (f.domain_info.getD {}).is_new_domain.getD false then (0.2 : ℚ) else 0,
   if f.is_whitelisted then (-0.5 : ℚ) else 0]

/-! ## Helper lemmas -/

/-- Shift an additive guarded update into a guarded summand. -/
theorem ite_add_shift (c : Prop) [Decidable c] (s w : ℚ) :
    (if c then s + w else s) = s + (if c then w else 0) := by
  split <;> simp

/-- Shift a subtractive guarded update into a guarded summand. -/
theorem ite_sub_shift (c : Prop) [Decidable c] (s w : ℚ) :
    (if c then s - w else s) = s + (if c then -w else 0) := by
  split <;> simp [sub_eq_add_neg]

/-- A list-truthiness guard in front of a length-proportional summand is
redundant: the summand is zero on the empty list. -/
theorem ite_list_mul (l : List String) (s w : ℚ) :
    (if l ≠ [] then s + w * (l.length : ℚ) else s) = s + w * (l.length : ℚ) := by
  cases l <;> simp

/-- The sequentially accumulated score of the source equals the clamped sum
of the spec's eleven terms. -/
theorem rule_based_scoring_eq_clamped_sum (f : FeatureVector) :
    rule_based_scoring f = min 1 (max 0 (spec_terms f).sum) := by
  unfold rule_based_scoring spec_terms
  dsimp only
  rw [ite_list_mul, ite_list_mul, ite_add_shift, ite_add_shift, ite_add_shift,
    ite_add_shift, ite_add_shift, ite_add_shift, ite_add_shift, ite_add_shift,
    ite_sub_shift]
  simp only [List.sum_cons, List.sum_nil]
  norm_num
  ring_nf

/-- The clamp keeps every rule-based score inside the unit interval. -/
theorem rule_based_scoring_bounds (f : FeatureVector) :
    0 ≤ rule_based_scoring f ∧ rule_based_scoring f ≤ 1 := by
  rw [rule_based_scoring_eq_clamped_sum]
  exact ⟨le_min zero_le_one (le_max_left 0 _), min_le_left 1 _⟩

/-- The scenario vector written out field by field. -/
theorem scenarioFV_eq :
    scenarioFV =
      { url := "http://192.0.2.10/login"
        domain := "192.0.2.10"
        has_ip := true
        suspicious_patterns := []
        domain_length := 10
        subdomain_count := 2
        is_whitelisted := false
        ssl_info := some { valid := some false, is_self_signed := some true,
                           error := some "timed out" }
        content_analysis := some { analyzed := some false,
                                   error := some "connection refused" }
        domain_info := some { is_new_domain := some true,
                              error := some "no such domain" } } := by
  decide

/-- The scenario vector scores a raw sum of 1.0: 0.3 (IP host) + 0.3
(invalid TLS) + 0.2 (self-signed default on handshake failure) + 0.2
(new-domain default on lookup failure). -/
theorem scenarioFV_score : rule_based_scoring scenarioFV = 1 := by
  rw [rule_based_scoring_eq_clamped_sum, scenarioFV_eq]
  norm_num [spec_terms, min_def, max_def]

/-! ## Claims -/

/-- C1: `rule_based_scoring` returns exactly the weighted sum of the eleven
spec terms (0.3 for an IP host, 0.2 per matched pattern, 0.1 for a long
host, 0.2 for many subdomains, 0.3 for invalid TLS, 0.2 for self-signed,
0.1 per suspicious keyword, 0.1 for a password field, 0.1 for many external
links, 0.2 for a new domain, −0.5 for a whitelisted host), clamped to
[0, 1]; the terms are order-independent (any permutation of them sums to the
same score) with no early exit, and the function is pure, so the claimed
determinism is inherent. -/
theorem C1_rule_based_scoring_is_clamped_weighted_sum (f : FeatureVector) :
    rule_based_scoring f = min 1 (max 0 (spec_terms f).sum) ∧
    ∀ l : List ℚ, l.Perm (spec_terms f) →
      rule_based_scoring f = min 1 (max 0 l.sum) := by
  refine ⟨rule_based_scoring_eq_clamped_sum f, fun l hl => ?_⟩
  rw [rule_based_scoring_eq_clamped_sum f, hl.sum_eq]

/-- C2: `calculate_risk_level` returns LOW whenever `is_whitelisted` holds
(checked first, overriding the score entirely); otherwise the label is HIGH
iff score > 0.7, MEDIUM iff 0.4 < score ≤ 0.7 (so score exactly 0.7 is
MEDIUM), LOW iff score ≤ 0.4; and no feature other than `is_whitelisted`
affects the label. -/
theorem C2_calculate_risk_level_thresholds (f : FeatureVector) (s : ℚ) :
    (f.is_whitelisted = true → calculate_risk_level f s = .LOW) ∧
    (f.is_whitelisted = false →
      ((calculate_risk_level f s = .HIGH ↔ 0.7 < s) ∧
       (calculate_risk_level f s = .MEDIUM ↔ 0.4 < s ∧ s ≤ 0.7) ∧
       (calculate_risk_level f s = .LOW ↔ s ≤ 0.4))) ∧
    (∀ g : FeatureVector, f.is_whitelisted = g.is_whitelisted →
      calculate_risk_level f s = calculate_risk_level g s) := by
  unfold calculate_risk_level
  refine ⟨fun h => by rw [if_pos h], fun h => ?_, fun g hg => by rw [hg]⟩
  rw [if_neg (by simp [h])]
  rcases lt_or_le 0.7 s with h1 | h1
  · rw [if_pos h1]
    refine ⟨⟨fun _ => h1, fun _ => rfl⟩,
      iff_of_false (by decide) (fun hc => absurd h1 (not_lt.mpr hc.2)),
      iff_of_false (by decide) (by push_neg; linarith)⟩
  · rw [if_neg (not_lt.mpr h1)]
    rcases lt_or_le 0.4 s with h2 | h2
    · rw [if_pos h2]
      refine ⟨iff_of_false (by decide) (not_lt.mpr h1),
        ⟨fun _ => ⟨h2, h1⟩, fun _ => rfl⟩,
        iff_of_false (by decide) (fun hc => absurd h2 (not_lt.mpr hc))⟩
    · rw [if_neg (not_lt.mpr h2)]
      exact ⟨iff_of_false (by decide) (not_lt.mpr h1),
        iff_of_false (by decide) (fun hc => absurd hc.1 (not_lt.mpr h2)),
        iff_of_true rfl h2⟩

/-- C2 witness: at the boundary score 0.7 a non-whitelisted vector is
labelled MEDIUM, and a whitelisted vector with an adversarial score 0.9 is
still LOW. -/
theorem C2_witness_boundary_and_whitelist :
    calculate_risk_level {} 0.7 = .MEDIUM ∧
    calculate_risk_level { is_whitelisted := true } 0.9 = .LOW := by
  constructor
  · exact ((C2_calculate_risk_level_thresholds {} 0.7).2.1 rfl).2.1.mpr
      (by norm_num)
  · exact (C2_calculate_risk_level_thresholds { is_whitelisted := true } 0.9).1 rfl

/-- C5 counterexample: on the scenario vector the clamped score is 1.0, not
the claimed 0.8 — the claim misses the +0.2 that the failure-default
`is_self_signed=True` of the TLS record contributes. -/
theorem C5_counterexample_score_is_one :
    rule_based_scoring scenarioFV = 1 ∧ (1 : ℚ) ≠ 0.8 :=
  ⟨scenarioFV_score, by norm_num⟩

/-- C5 (amended): the scenario vector for `http://192.0.2.10/login` with
all three extractors failed scores a raw weighted sum of 1.0 (0.3 has_ip +
0.3 invalid TLS + 0.2 self-signed failure default + 0.2 new-domain failure
default), clamped score 1.0, and `calculate_risk_level` labels it HIGH. -/
theorem C5_amended_scenario_scores_one_and_high :
    rule_based_scoring scenarioFV = 1 ∧
    (spec_terms scenarioFV).sum = 1 ∧
    calculate_risk_level scenarioFV (rule_based_scoring scenarioFV) = .HIGH := by
  refine ⟨scenarioFV_score, ?_, ?_⟩
  · rw [scenarioFV_eq]
    norm_num [spec_terms]
  · rw [scenarioFV_score]
    unfold calculate_risk_level
    rw [if_neg (by decide), if_pos (by norm_num)]

/-- C3 counterexample: a decoded response whose `phishing_probability` is
1.5 is returned as-is — `get_ai_prediction` performs no clamping, so the
score escapes [0, 1]. -/
theorem C3_counterexample_unclamped_remote_value :
    get_ai_prediction (.ok 200 (some (3 / 2))) {} = 3 / 2 ∧
    ¬ (3 / 2 : ℚ) ≤ 1 :=
  ⟨rfl, by norm_num⟩

/-- C3 (amended): the remote `phishing_probability` value is returned
directly with no clamping, so the score lies in [0, 1] only when the remote
value does; a response missing the field yields 0.0, and when the call
raises the rule-based fallback score is returned, which is clamped into
[0, 1]. -/
theorem C3_amended_score_range (r : RemoteResult) (f : FeatureVector) :
    (∀ m, r = .raises m →
      0 ≤ get_ai_prediction r f ∧ get_ai_prediction r f ≤ 1) ∧
    (∀ s p, r = .ok s (some p) → get_ai_prediction r f = p) ∧
    (∀ s, r = .ok s none → get_ai_prediction r f = 0) := by
  refine ⟨?_, ?_, ?_⟩
  · rintro m rfl
    exact rule_based_scoring_bounds f
  · rintro s p rfl
    rfl
  · rintro s rfl
    norm_num [get_ai_prediction]

/-- C3 witness: the amended theorem applied at a concrete failing call and
at a concrete in-range remote value. -/
theorem C3_witness_range_cases :
    (0 ≤ get_ai_prediction (.raises "timed out") {} ∧
      get_ai_prediction (.raises "timed out") {} ≤ 1) ∧
    get_ai_prediction (.ok 200 (some (1 / 2))) {} = 1 / 2 :=
  ⟨(C3_amended_score_range (.raises "timed out") {}).1 "timed out" rfl,
   (C3_amended_score_range (.ok 200 (some (1 / 2))) {}).2.1 200 (1 / 2) rfl⟩

/-- C4 counterexample: a non-2xx (503) response whose decoded body lacks
`phishing_probability` does not fall back to the rule-based score — it
yields the dict-get default 0.0, while the rule-based score of the same
vector is 1.0. -/
theorem C4_counterexample_no_fallback_on_missing_field :
    get_ai_prediction (.ok 503 none) scenarioFV = 0 ∧
    rule_based_scoring scenarioFV = 1 ∧
    get_ai_prediction (.ok 503 none) scenarioFV ≠ rule_based_scoring scenarioFV := by
  refine ⟨by norm_num [get_ai_prediction], scenarioFV_score, ?_⟩
  rw [scenarioFV_score]
  norm_num [get_ai_prediction]

/-- C4 (amended): `get_ai_prediction` falls back to `rule_based_scoring`
exactly when the call raises (transport error, timeout, undecodable body);
a decoded response — regardless of status code, non-2xx included — never
falls back: it yields the `phishing_probability` field when present and
0.0 when absent.  No error propagates in either case. -/
theorem C4_amended_fallback_on_raise_only (f : FeatureVector) :
    (∀ m, get_ai_prediction (.raises m) f = rule_based_scoring f) ∧
    (∀ s p, get_ai_prediction (.ok s p) f = p.getD 0.0) :=
  ⟨fun _ => rfl, fun _ _ => rfl⟩

/-- C6: `check_ssl_certificate` is total over handshake outcomes: any
failure yields `valid=false`, `is_self_signed=true` and the cause as the
error string; success yields `valid=true`, no error, and `is_self_signed`
exactly when the certificate's issuer equals its subject. -/
theorem C6_check_ssl_certificate_total (h : Except String PeerCert) :
    (∀ e, h = .error e →
      check_ssl_certificate h =
        { valid := some false, is_self_signed := some true, error := some e }) ∧
    (∀ c, h = .ok c →
      (check_ssl_certificate h).valid = some true ∧
      ((check_ssl_certificate h).is_self_signed = some true ↔ c.issuer = c.subject) ∧
      (check_ssl_certificate h).error = none) := by
  constructor
  · rintro e rfl
    rfl
  · rintro c rfl
    refine ⟨rfl, ?_, rfl⟩
    simp [check_ssl_certificate]

/-- C6 witness: the theorem applied at a concrete failed handshake and at a
concrete self-signed certificate. -/
theorem C6_witness_failure_and_self_signed :
    check_ssl_certificate (.error "handshake failure") =
      { valid := some false, is_self_signed := some true,
        error := some "handshake failure" } ∧
    (check_ssl_certificate
        (.ok { issuer := [("commonName", "x")], subject := [("commonName", "x")],
               notAfter := "Jan 1 00:00:00 2030 GMT" })).is_self_signed = some true := by
  constructor
  · exact (C6_check_ssl_certificate_total (.error "handshake failure")).1
      "handshake failure" rfl
  · exact ((C6_check_ssl_certificate_total
      (.ok { issuer := [("commonName", "x")], subject := [("commonName", "x")],
             notAfter := "Jan 1 00:00:00 2030 GMT" })).2 _ rfl).2.1.mpr rfl

/-- C7 counterexample: with creation dates `[990, 900]` (later date first)
and `now = 1000`, the code uses the first element 990 — `days_old = 10`,
`is_new_domain = true` — whereas the earliest value 900 would give
`days_old = 100`, which is not below 30. -/
theorem C7_counterexample_first_not_earliest :
    (get_domain_info 1000 (.ok multiWhois)).days_old = some 10 ∧
    (get_domain_info 1000 (.ok multiWhois)).is_new_domain = some true ∧
    (get_domain_info 1000 (.ok multiWhois)).days_old ≠ some (1000 - 900) ∧
    ¬ ((1000 : Int) - 900 < 30) := by
  decide

/-- C7 (amended): when the lookup returns multiple creation-date values the
FIRST listed value (not necessarily the earliest) computes `days_old` and
`is_new_domain`; when a creation date is available `is_new_domain` holds
iff `days_old < 30`; and a failed lookup yields `is_new_domain=true` with
the error string, never raising. -/
theorem C7_amended_domain_info (now : Int) :
    (∀ (w : WhoisRecord) (d : Int) (rest : List Int),
      w.creation_date = .listed (d :: rest) →
      (get_domain_info now (.ok w)).days_old = some (now - d) ∧
      (get_domain_info now (.ok w)).is_new_domain = some (decide (now - d < 30))) ∧
    (∀ (w : WhoisRecord) (d : Int), w.creation_date = .single d →
      (get_domain_info now (.ok w)).days_old = some (now - d) ∧
      (get_domain_info now (.ok w)).is_new_domain = some (decide (now - d < 30))) ∧
    (∀ e, (get_domain_info now (.error e)).is_new_domain = some true ∧
      (get_domain_info now (.error e)).error = some e) := by
  refine ⟨?_, ?_, fun e => ⟨rfl, rfl⟩⟩
  · rintro ⟨cd, reg⟩ d rest h
    cases h
    exact ⟨rfl, rfl⟩
  · rintro ⟨cd, reg⟩ d h
    cases h
    exact ⟨rfl, rfl⟩

/-- C7 witness: the amended theorem applied to the concrete two-date record
and to a concrete failed lookup. -/
theorem C7_witness_multi_and_failure :
    ((get_domain_info 1000 (.ok multiWhois)).days_old = some (1000 - 990) ∧
      (get_domain_info 1000 (.ok multiWhois)).is_new_domain =
        some (decide ((1000 : Int) - 990 < 30))) ∧
    ((get_domain_info 1000 (.error "lookup failed")).is_new_domain = some true ∧
      (get_domain_info 1000 (.error "lookup failed")).error = some "lookup failed") :=
  ⟨(C7_amended_domain_info 1000).1 multiWhois 990 [900] rfl,
   (C7_amended_domain_info 1000).2.2 "lookup failed"⟩

/-- C8 counterexample: a page carrying the same outbound anchor twice
counts 2, not 1 — `analyze_content` counts a plain filtered list, not
distinct hrefs (whose deduplicated count here is 1). -/
theorem C8_counterexample_duplicates_counted :
    (analyze_content "http://site.example/p" (.ok dupLinkPage)).external_links_count =
      some 2 ∧
    (dupLinkPage.anchor_hrefs.filter fun h =>
        matchHead "http".data h.data &&
          netlocOf h != netlocOf "http://site.example/p").dedup.length = 1 ∧
    (2 : ℕ) ≠ 1 := by
  decide

/-- C8 (amended): `external_links_count` is the number, counted WITH
multiplicity, of anchor hrefs that start with `http` and whose host differs
from the analyzed URL's host — a page repeating one outbound link n times
contributes n, not 1. -/
theorem C8_amended_external_links_with_multiplicity (url : String) (page : Page) :
    (analyze_content url (.ok page)).external_links_count =
      some (page.anchor_hrefs.countP fun h =>
        matchHead "http".data h.data && netlocOf h != netlocOf url) := by
  unfold analyze_content
  dsimp only
  rw [List.countP_eq_length_filter]

/-- C9 counterexample: the failure record of `analyze_content` does not
carry the other content fields at default values — `suspicious_keywords`
(like every field other than `error` and `analyzed`) is absent, not an
empty list. -/
theorem C9_counterexample_fields_absent :
    (analyze_content "http://a.example/" (.error "timed out")).analyzed = some false ∧
    (analyze_content "http://a.example/" (.error "timed out")).error = some "timed out" ∧
    (analyze_content "http://a.example/" (.error "timed out")).suspicious_keywords = none ∧
    (analyze_content "http://a.example/" (.error "timed out")).suspicious_keywords ≠
      some [] := by
  decide

/-- C9 (amended): on any fetch/parse failure `analyze_content` returns the
record carrying only `analyzed=false` and the error string — the other
content fields are absent rather than present-at-defaults, but every
defaulted read of them resolves to the empty default, and the failure is a
returned value, never a raised one. -/
theorem C9_amended_failure_record (url e : String) :
    analyze_content url (.error e) = { analyzed := some false, error := some e } ∧
    (analyze_content url (.error e)).suspicious_keywords.getD [] = [] ∧
    (analyze_content url (.error e)).has_password_field.getD false = false ∧
    (analyze_content url (.error e)).form_count.getD 0 = 0 ∧
    (analyze_content url (.error e)).external_links_count.getD 0 = 0 ∧
    (analyze_content url (.error e)).title.getD "" = "" ∧
    (analyze_content url (.error e)).has_favicon.getD false = false :=
  ⟨rfl, rfl, rfl, rfl, rfl, rfl, rfl⟩

/-- C9 witness: the amended theorem at a concrete failed fetch. -/
theorem C9_witness_concrete_failure :
    analyze_content "http://b.example/" (.error "connection refused") =
      { analyzed := some false, error := some "connection refused" } :=
  (C9_amended_failure_record "http://b.example/" "connection refused").1

/-- C10: `rule_based_scoring` is total over degraded vectors: a missing
sub-record scores identically to an empty one (every access resolves
through a `get` default), an `ssl_info` with no `valid` key scores exactly
as `valid=false` (+0.3), and a vector with benign lexical features and all
three sub-records missing still scores 0.3 — missing TLS information
raises the score instead of being neutral. -/
theorem C10_scoring_total_on_degraded_vectors :
    (∀ f : FeatureVector,
      rule_based_scoring { f with ssl_info := none } =
        rule_based_scoring { f with ssl_info := some {} }) ∧
    (∀ f : FeatureVector,
      rule_based_scoring { f with content_analysis := none } =
        rule_based_scoring { f with content_analysis := some {} }) ∧
    (∀ f : FeatureVector,
      rule_based_scoring { f with domain_info := none } =
        rule_based_scoring { f with domain_info := some {} }) ∧
    (∀ (f : FeatureVector) (s : SSLInfo),
      rule_based_scoring { f with ssl_info := some { s with valid := none } } =
        rule_based_scoring { f with ssl_info := some { s with valid := some false } }) ∧
    (∀ f : FeatureVector, f.has_ip = false → f.suspicious_patterns = [] →
      f.domain_length ≤ 30 → f.subdomain_count ≤ 3 → f.is_whitelisted = false →
      f.ssl_info = none → f.content_analysis = none → f.domain_info = none →
      rule_based_scoring f = 0.3) := by
  refine ⟨fun f => rfl, fun f => rfl, fun f => rfl, fun f s => rfl, ?_⟩
  intro f h1 h2 h3 h4 h5 h6 h7 h8
  rw [rule_based_scoring_eq_clamped_sum]
  rw [show spec_terms f =
      [0, 0.2 * ((0 : ℕ) : ℚ), 0, 0, 0.3, 0, 0.1 * ((0 : ℕ) : ℚ), 0, 0, 0, 0] by
    unfold spec_terms
    rw [h2, h6, h7, h8]
    rw [if_neg (by simp [h1]), if_neg (by omega), if_neg (by omega),
      if_pos (by rfl), if_neg (by simp), if_neg (by simp), if_neg (by norm_num),
      if_neg (by simp), if_neg (by simp [h5])]
    simp]
  norm_num [min_def, max_def]

/-- C10 witness: the last clause of the theorem applied to the all-default
feature vector (all sub-records absent, benign lexical features): its score
is 0.3. -/
theorem C10_witness_default_vector_scores :
    rule_based_scoring {} = 0.3 :=
  C10_scoring_total_on_degraded_vectors.2.2.2.2 {} rfl rfl (by norm_num)
    (by norm_num) rfl rfl rfl rfl

end PhishingDetector
